import Mathlib

-- A shallow embedding of the build pipeline of the flex-py repository
-- (pdm_build.py, setup.py, src/gnu_flex/paths.py) and proofs about it.
-- Filesystem, subprocess and network activity are modelled as an explicit
-- effect trace; the booleans of the world structures stand for the
-- observable outcomes of the external steps (file-existence checks,
-- subprocess exit statuses).

namespace FlexPy

/-- `FLEX_VERSION` constant of pdm_build.py. -/
def FLEX_VERSION : String := "2.6.4"

/-- `FLEX_TARBALL_NAME` constant of pdm_build.py. -/
def FLEX_TARBALL_NAME : String := "flex-" ++ FLEX_VERSION ++ ".tar.gz"

/-- `FLEX_TARBALL_URL` constant of pdm_build.py. -/
def FLEX_TARBALL_URL : String :=
  "https://github.com/westes/flex/releases/download/v" ++ FLEX_VERSION
    ++ "/flex-" ++ FLEX_VERSION ++ ".tar.gz"

/-- The normalisation applied to `platform.machine()` at module load time in
pdm_build.py: `.strip().lower().replace("-", "_")`, written over the
character list (the replace pattern is the single character `-`, so a
character-wise replace is exact). -/
def normalize_machine (s : String) : String :=
  let stripped := ((s.data.dropWhile Char.isWhitespace).reverse.dropWhile
    Char.isWhitespace).reverse
  String.mk ((stripped.map Char.toLower).map (fun c => if c = '-' then '_' else c))

/-- Embedding of `_zig_target_for_arch` of pdm_build.py: maps a normalised
architecture string to an optional (zig target triple, PyPI architecture tag)
pair, mirroring the if-chain of the source. -/
def zig_target_for_arch (arch : String) : Option String × Option String :=
  if arch ∈ ["x86_64", "amd64"] then (some "x86_64-linux-musl", some "x86_64")
  else if arch ∈ ["aarch64", "arm64"] then (some "aarch64-linux-musl", some "aarch64")
  else if arch ∈ ["i386", "i486", "i586", "i686", "x86"] then (some "x86-linux-musl", some "i686")
  else if arch ∈ ["s390x"] then (some "s390x-linux-musl", some "s390x")
  else if arch ∈ ["armv7l", "armv7"] then (some "arm-linux-musleabi", some "armv7l")
  else if arch ∈ ["ppc64le"] then (some "powerpc64le-linux-musl", some "ppc64le")
  else (none, none)

/-- The architecture strings the spec enumerates for Target Resolution
(x86_64/amd64, aarch64/arm64, i386..i686/x86, s390x, ppc64le).  This
definition follows the SPEC's words, for comparison with the code. -/
def spec_enumerated_arches : List String :=
  ["x86_64", "amd64", "aarch64", "arm64", "i386", "i486", "i586", "i686",
   "x86", "s390x", "ppc64le"]

/-- The architecture strings actually mapped by `_zig_target_for_arch` in
pdm_build.py (the spec's enumeration plus armv7l/armv7). -/
def code_mapped_arches : List String :=
  ["x86_64", "amd64", "aarch64", "arm64", "i386", "i486", "i586", "i686",
   "x86", "s390x", "armv7l", "armv7", "ppc64le"]

/-- The (triple, tag) pairs `_zig_target_for_arch` can return for a mapped
architecture. -/
def enumerated_target_pairs : List (Option String × Option String) :=
  [(some "x86_64-linux-musl", some "x86_64"),
   (some "aarch64-linux-musl", some "aarch64"),
   (some "x86-linux-musl", some "i686"),
   (some "s390x-linux-musl", some "s390x"),
   (some "arm-linux-musleabi", some "armv7l"),
   (some "powerpc64le-linux-musl", some "ppc64le")]

/-- Replace every occurrence of the three-character placeholder `\x7b0\x7d`
in a character list by `arg`. -/
def py_format_chars (arg : List Char) : List Char → List Char
  | '\x7b' :: '0' :: '\x7d' :: rest => arg ++ py_format_chars arg rest
  | c :: rest => c :: py_format_chars arg rest
  | [] => []

/-- Python `template.format(arg)` for templates whose only placeholder is
`\x7b0\x7d`: every occurrence of the placeholder is replaced by `arg`. -/
def py_format (template arg : String) : String :=
  String.mk (py_format_chars arg.data template.data)

/-- The template list used by `_default_linux_plat_name` for x86_64/i686. -/
def legacy_x86_templates : List String :=
  ["manylinux_2_5_\x7b0\x7d", "manylinux1_\x7b0\x7d", "musllinux_1_1_\x7b0\x7d"]

/-- The template list used by `_default_linux_plat_name` for all other mapped
architectures. -/
def modern_arch_templates : List String :=
  ["manylinux_2_17_\x7b0\x7d", "manylinux2014_\x7b0\x7d", "musllinux_1_1_\x7b0\x7d"]

/-- Python `s.startswith(pre)`: the characters of `pre` are a prefix of the
characters of `s` (kernel-reducible, unlike `String.startsWith`). -/
def py_startswith (s pre : String) : Bool :=
  pre.data.isPrefixOf s.data

/-- Embedding of `_default_linux_plat_name` of pdm_build.py.  The module
globals `sys.platform` and `PYPI_ARCH` are threaded as parameters. -/
def default_linux_plat_name (sysPlatform : String) (pypiArch : Option String) :
    Option (List String) :=
  if ¬ (py_startswith sysPlatform "linux") then none
  else
    match pypiArch with
    | none => none
    | some a =>
      let templates :=
        if a ∈ ["x86_64", "i686"] then legacy_x86_templates
        else modern_arch_templates
      some (templates.map (fun t => py_format t a))

-- ## Effect traces

/-- One observable side effect of the pipeline: a subprocess invocation, a
file copy, a chmod, a directory creation/removal, the man-page write of
setup.py, an archive extraction, a network GET (with its timeout in
seconds), or a write of fetched bytes. -/
inductive Effect where
  | runProc (cmd : List String)
  | copyFile (src dst : String)
  | chmodFile (path : String) (mode : Nat)
  | makeDirs (path : String)
  | removeTree (path : String)
  | writeManPage (path : String)
  | extractArchive (tarball dest : String)
  | netGet (url : String) (timeoutSecs : Nat)
  | writeBytes (path : String)
deriving Repr, DecidableEq

/-- Whether an effect is a subprocess invocation. -/
def Effect.isRunProc : Effect → Bool
  | .runProc _ => true
  | _ => false

/-- Whether an effect is a file copy. -/
def Effect.isCopy : Effect → Bool
  | .copyFile _ _ => true
  | _ => false

/-- Whether an effect is a chmod. -/
def Effect.isChmod : Effect → Bool
  | .chmodFile _ _ => true
  | _ => false

/-- Whether an effect is a network fetch. -/
def Effect.isNetGet : Effect → Bool
  | .netGet _ _ => true
  | _ => false

-- ## Source acquisition (`_ensure_tarball`, `_resolve_source`)

/-- The filesystem state `_ensure_tarball` reads and writes: the bytes of the
tarball cached at `build_dir / FLEX_TARBALL_NAME` (if present) and the bytes
of the bundled tarball at `PROJECT_ROOT / FLEX_TARBALL_NAME` (if present). -/
structure TarballFS where
  cacheBytes : Option (List Nat)
  bundledBytes : Option (List Nat)
deriving Repr, DecidableEq

/-- Result of `_ensure_tarball`: the filesystem afterwards, the returned
destination path, and the trace of effects performed. -/
structure EnsureTarballResult where
  fs : TarballFS
  resultPath : String
  effects : List Effect
deriving Repr, DecidableEq

/-- The project-root path (`PROJECT_ROOT` in pdm_build.py), symbolic. -/
def PROJECT_ROOT : String := "/project"

/-- Embedding of `_ensure_tarball` of pdm_build.py: make the build directory,
then reuse the cached tarball if it exists, else copy the bundled tarball if
one exists, else fetch the bytes over the network (timeout 600 seconds) and
persist them at the destination.  `netContent` stands for the bytes the
network would return. -/
def ensure_tarball (buildDir : String) (fs : TarballFS) (netContent : List Nat) :
    EnsureTarballResult :=
  let destination := buildDir ++ "/" ++ FLEX_TARBALL_NAME
  if fs.cacheBytes.isSome then
    ⟨fs, destination, [Effect.makeDirs buildDir]⟩
  else
    match fs.bundledBytes with
    | some b =>
      ⟨{ fs with cacheBytes := some b }, destination,
        [Effect.makeDirs buildDir,
         Effect.copyFile (PROJECT_ROOT ++ "/" ++ FLEX_TARBALL_NAME) destination]⟩
    | none =>
      ⟨{ fs with cacheBytes := some netContent }, destination,
        [Effect.makeDirs buildDir, Effect.netGet FLEX_TARBALL_URL 600,
         Effect.writeBytes destination]⟩

/-- Embedding of `_resolve_source` of pdm_build.py.  The archive is modelled
by the list of top-level entry names its extraction produces in
`extract_dir`; after extraction the function checks only that the expected
versioned directory `flex-FLEX_VERSION` exists, returning its path, and
raises `RuntimeError` (modelled as `Except.error` with the message) when it
does not. -/
def resolve_source (topLevelEntries : List String) (extractDir : String) :
    Except String String :=
  let srcDir := extractDir ++ "/flex-" ++ FLEX_VERSION
  if ("flex-" ++ FLEX_VERSION) ∈ topLevelEntries then Except.ok srcDir
  else Except.error ("flex sources not found at " ++ srcDir)

-- ## Native build (`build_flex` of pdm_build.py)

/-- Observable outcomes of the external steps of `build_flex`: the exit
status of each subprocess and whether the expected binary exists in the
stage directory after install. -/
structure BuildWorld where
  configureOk : Bool
  makeOk : Bool
  installOk : Bool
  stagedBinaryExists : Bool
deriving Repr, DecidableEq

/-- Result of a build-runner invocation: its effect trace and the error
raised, if any (`none` means success). -/
structure BuildOutcome where
  effects : List Effect
  failure : Option String
deriving Repr, DecidableEq

/-- The path of the parent directory of `p` (Python `Path(p).parent`). -/
def parentDir (p : String) : String :=
  String.intercalate "/" ((p.splitOn "/").dropLast)

/-- File mode applied to the staged executable in both pdm_build.py
(`output.chmod(0o755)`) and setup.py (`target_binary.chmod(0o755)`). -/
def staged_mode : Nat := 0o755

/-- Embedding of `build_flex` of pdm_build.py: make the output's parent
directory, create the scratch build and stage directories inside the
temporary directory, extract and resolve the source, then run configure,
make and install; after install check that the binary exists in the stage
tree, and only then copy it to `output` and chmod it 0o755.  A failing step
raises, keeping the trace up to that point. -/
def build_flex (w : BuildWorld) (entries : List String)
    (tarballPath tempDir output : String) : BuildOutcome :=
  let buildTemp := tempDir ++ "/build"
  let stageDir := tempDir ++ "/flex-stage"
  let effs0 := [Effect.makeDirs (parentDir output), Effect.makeDirs buildTemp,
                Effect.extractArchive tarballPath buildTemp]
  match resolve_source entries buildTemp with
  | Except.error msg => ⟨effs0, some msg⟩
  | Except.ok _ =>
    let effs1 := effs0 ++ [Effect.makeDirs stageDir,
      Effect.runProc ["./configure", "CFLAGS=-D_GNU_SOURCE", "--disable-nls",
        "--disable-shared", "--enable-static", "--prefix=/usr/local"]]
    if ¬ w.configureOk then ⟨effs1, some "configure failed"⟩
    else
      let effs2 := effs1 ++ [Effect.runProc ["make"]]
      if ¬ w.makeOk then ⟨effs2, some "make failed"⟩
      else
        let effs3 := effs2 ++ [Effect.runProc ["make", "DESTDIR=" ++ stageDir, "install"]]
        if ¬ w.installOk then ⟨effs3, some "install failed"⟩
        else
          let builtBinary := stageDir ++ "/usr/local/bin/flex"
          if ¬ w.stagedBinaryExists then
            ⟨effs3, some ("Expected flex binary missing at " ++ builtBinary)⟩
          else
            ⟨effs3 ++ [Effect.copyFile builtBinary output,
                       Effect.chmodFile output staged_mode], none⟩

-- ## Native build (`BuildFlex.run` of setup.py)

/-- Observable outcomes of the external steps of `BuildFlex.run` of setup.py:
existence checks on the source tree, availability of libtoolize (from the
inherited environment or on PATH via `shutil.which`, which creates no
subprocess), subprocess exit statuses, whether autogen.sh left a configure
script behind, the man-page and staged-binary existence checks, and the CPU
count used for the make job flag. -/
structure SetupWorld where
  srcDirExists : Bool
  configureExists : Bool
  autogenExists : Bool
  libtoolizeInEnv : Bool
  libtoolizeOnPath : Bool
  glibtoolizeOnPath : Bool
  autogenOk : Bool
  configureExistsAfterAutogen : Bool
  manPageExists : Bool
  configureOk : Bool
  makeOk : Bool
  installOk : Bool
  stagedBinaryExists : Bool
  numCpus : Nat
deriving Repr, DecidableEq

/-- The tail of `BuildFlex.run` once a configure script is in place: ensure a
man page, run configure, make and install, check the staged binary, then
mkpath the target directory, copy the binary under `build_lib/gnu_flex/bin`
and chmod it 0o755. -/
def setup_after_configure (w : SetupWorld) (srcDir stageDir buildLib : String)
    (effs : List Effect) : BuildOutcome :=
  let effs := if w.manPageExists then effs
              else effs ++ [Effect.writeManPage (srcDir ++ "/doc/flex.1")]
  let effs := effs ++ [Effect.runProc ["./configure", "--disable-shared",
    "--enable-static", "--prefix=/usr/local"]]
  if ¬ w.configureOk then ⟨effs, some "Command failed (configure)"⟩
  else
    let effs := effs ++ [Effect.runProc ["make", "-j" ++ toString (max 1 w.numCpus)]]
    if ¬ w.makeOk then ⟨effs, some "Command failed (make)"⟩
    else
      let effs := effs ++ [Effect.runProc ["make", "DESTDIR=" ++ stageDir, "install"]]
      if ¬ w.installOk then ⟨effs, some "Command failed (install)"⟩
      else
        let builtBinary := stageDir ++ "/usr/local/bin/flex"
        if ¬ w.stagedBinaryExists then
          ⟨effs, some ("flex binary not found at " ++ builtBinary)⟩
        else
          let targetBinary := buildLib ++ "/gnu_flex/bin/flex"
          ⟨effs ++ [Effect.makeDirs (buildLib ++ "/gnu_flex/bin"),
                    Effect.copyFile builtBinary targetBinary,
                    Effect.chmodFile targetBinary staged_mode], none⟩

/-- Embedding of `BuildFlex.run` of setup.py: fail if the source tree is
absent; if `configure` is missing, either run `autogen.sh` (requiring
libtoolize) or fail with the configure-missing error before any subprocess;
re-check configure after autogen; then hand over to the configure/make/
install tail. -/
def setup_build_flex_run (w : SetupWorld) (srcDir stageDir buildLib : String) :
    BuildOutcome :=
  if ¬ w.srcDirExists then
    ⟨[], some "Flex source not found. Ensure git submodule is initialized or set FLEX_SOURCE."⟩
  else if w.configureExists then
    setup_after_configure w srcDir stageDir buildLib []
  else if w.autogenExists then
    if ¬ w.libtoolizeInEnv ∧ ¬ w.libtoolizeOnPath ∧ ¬ w.glibtoolizeOnPath then
      ⟨[], some "autogen.sh requires libtoolize/glibtoolize; please install libtool to generate configure"⟩
    else
      let effs := [Effect.runProc ["sh", srcDir ++ "/autogen.sh"]]
      if ¬ w.autogenOk then ⟨effs, some "Command failed (autogen)"⟩
      else if ¬ w.configureExistsAfterAutogen then
        ⟨effs, some "configure script still missing after autogen"⟩
      else setup_after_configure w srcDir stageDir buildLib effs
  else
    ⟨[], some "configure script missing and autogen.sh not found; use a release tarball or provide FLEX_SOURCE with generated build files."⟩

-- ## Config settings (Python dict) and `pdm_build_init_hook`

/-- A config-settings value: a plain string or a list of strings (the
`--plat-name` value is a list). -/
inductive CfgVal where
  | s (v : String)
  | l (vs : List String)
deriving Repr, DecidableEq

/-- Key lookup in a config-settings dict, modelled as an association list. -/
def dict_get (d : List (String × CfgVal)) (k : String) : Option CfgVal :=
  (d.find? (fun p => p.1 == k)).map (fun p => p.2)

/-- Setting a key in a config-settings dict: drop any existing binding of
the key and append the new one (lookup-equivalent to Python dict update). -/
def dict_set (d : List (String × CfgVal)) (k : String) (v : CfgVal) :
    List (String × CfgVal) :=
  (d.filter (fun p => !(p.1 == k))) ++ [(k, v)]

/-- Python `\x7b**a, **b\x7d`: start from `a` and write each binding of `b`
over it, so `b`'s bindings win. -/
def dict_merge (a b : List (String × CfgVal)) : List (String × CfgVal) :=
  b.foldl (fun acc p => dict_set acc p.1 p.2) a

/-- Result of `pdm_build_init_hook`: the tarball filesystem afterwards, the
final `context.builder.config_settings`, the effect trace, and the raised
error if any. -/
structure PdmInitResult where
  fs : TarballFS
  configSettings : List (String × CfgVal)
  effects : List Effect
  failure : Option String
deriving Repr, DecidableEq

/-- Embedding of `pdm_build_init_hook` of pdm_build.py: remove the build
directory (this deletes any tarball cached inside it), re-create it, ensure
the tarball; for an sdist target return at once; otherwise merge the default
`--python-tag`/`--py-limited-api` settings with the caller's settings
(caller wins), then assign the derived `--plat-name` list over the merge
when one is derived, store the settings, and run `build_flex`.  The module
globals are threaded as parameters: `machine` is the raw `platform.machine()`
and `sysPlatform` is `sys.platform`. -/
def pdm_build_init_hook (target : String) (callerSettings : List (String × CfgVal))
    (fs : TarballFS) (netContent : List Nat) (sysPlatform machine : String)
    (w : BuildWorld) (entries : List String) (buildDir tempDir : String) :
    PdmInitResult :=
  let fs1 : TarballFS := { fs with cacheBytes := none }
  let effs := [Effect.removeTree buildDir, Effect.makeDirs buildDir]
  let r := ensure_tarball buildDir fs1 netContent
  let effs := effs ++ r.effects
  if target = "sdist" then ⟨r.fs, callerSettings, effs, none⟩
  else
    let defaults : List (String × CfgVal) :=
      [("--python-tag", CfgVal.s "py3"), ("--py-limited-api", CfgVal.s "none")]
    let merged := dict_merge defaults callerSettings
    let pypiArch := (zig_target_for_arch (normalize_machine machine)).2
    let settings :=
      match default_linux_plat_name sysPlatform pypiArch with
      | some lst => dict_set merged "--plat-name" (CfgVal.l lst)
      | none => merged
    let output := buildDir ++ "/gnu_flex/bin/flex"
    let b := build_flex w entries r.resultPath tempDir output
    ⟨r.fs, settings, effs ++ b.effects, b.failure⟩

-- ## Helper lemmas about association-list dictionaries

/-- `find?` distributes over append. -/
theorem find?_append {α : Type} (l₁ l₂ : List α) (p : α → Bool) :
    (l₁ ++ l₂).find? p = ((l₁.find? p).orElse (fun _ => l₂.find? p)) := by
  induction l₁ with
  | nil => simp [Option.orElse]
  | cons a l ih =>
    cases hpa : p a with
    | true => simp [List.find?_cons, hpa, Option.orElse]
    | false => simp [List.find?_cons, hpa, ih]

/-- After filtering key `k` away, a `find?` for key `k` fails. -/
theorem dict_find?_filter_self (d : List (String × CfgVal)) (k : String) :
    (d.filter (fun p => !(p.1 == k))).find? (fun p => p.1 == k) = none := by
  induction d with
  | nil => rfl
  | cons a d ih =>
    by_cases h : a.1 = k
    · have hb : (a.1 == k) = true := by simp [h]
      simp [List.filter_cons, hb, ih]
    · have hb : (a.1 == k) = false := by simp [h]
      simp [List.filter_cons, hb, List.find?_cons, ih]

/-- Filtering key `k` away does not change a `find?` for a different key. -/
theorem dict_find?_filter_other (d : List (String × CfgVal)) (k k' : String)
    (h : k' ≠ k) :
    (d.filter (fun p => !(p.1 == k))).find? (fun p => p.1 == k') =
      d.find? (fun p => p.1 == k') := by
  induction d with
  | nil => rfl
  | cons a d ih =>
    by_cases hak : a.1 = k
    · have hb : (a.1 == k) = true := by simp [hak]
      have hne : (a.1 == k') = false := by
        simp only [beq_eq_false_iff_ne]
        exact fun hh => h (hh.symm.trans hak)
      simp [List.filter_cons, hb, List.find?_cons, hne, ih]
    · have hb : (a.1 == k) = false := by simp [hak]
      cases hak' : (a.1 == k') with
      | true => simp [List.filter_cons, hb, List.find?_cons, hak']
      | false => simp [List.filter_cons, hb, List.find?_cons, hak', ih]

/-- Looking up the key just set returns the new value. -/
theorem dict_get_set_self (d : List (String × CfgVal)) (k : String) (v : CfgVal) :
    dict_get (dict_set d k v) k = some v := by
  unfold dict_get dict_set
  rw [find?_append, dict_find?_filter_self]
  simp [List.find?_cons, Option.orElse]

/-- Setting one key does not change the lookup of another. -/
theorem dict_get_set_ne (d : List (String × CfgVal)) (k k' : String) (v : CfgVal)
    (h : k' ≠ k) : dict_get (dict_set d k v) k' = dict_get d k' := by
  unfold dict_get dict_set
  rw [find?_append, dict_find?_filter_other d k k' h]
  have hkk : (k == k') = false := by
    simp only [beq_eq_false_iff_ne]
    exact fun hh => h hh.symm
  cases hfind : d.find? (fun p => p.1 == k') with
  | none => simp [Option.orElse, hfind, List.find?_cons, hkk]
  | some q => simp [Option.orElse, hfind]

/-- Merging a dict whose lookup of `k` fails leaves the lookup of `k` in the
base dict unchanged. -/
theorem dict_get_merge_of_none (b : List (String × CfgVal)) (a : List (String × CfgVal))
    (k : String) (h : dict_get b k = none) :
    dict_get (dict_merge a b) k = dict_get a k := by
  induction b generalizing a with
  | nil => rfl
  | cons p bs ih =>
    unfold dict_get at h
    cases hpk : (p.1 == k) with
    | true => simp [List.find?_cons, hpk] at h
    | false =>
      simp only [List.find?_cons, hpk] at h
      have hbs : dict_get bs k = none := h
      have hk : k ≠ p.1 := fun he => by simp [he] at hpk
      show dict_get (dict_merge (dict_set a p.1 p.2) bs) k = dict_get a k
      rw [ih (dict_set a p.1 p.2) hbs, dict_get_set_ne _ _ _ _ hk]

/-- If a dict with unique keys maps `k` to `v`, then after merging it over
any base dict the lookup of `k` yields `v` (later bindings win). -/
theorem dict_get_merge_of_some (b : List (String × CfgVal)) (a : List (String × CfgVal))
    (k : String) (v : CfgVal) (hnd : (b.map Prod.fst).Nodup)
    (h : dict_get b k = some v) :
    dict_get (dict_merge a b) k = some v := by
  induction b generalizing a with
  | nil => simp [dict_get] at h
  | cons p bs ih =>
    rw [List.map_cons, List.nodup_cons] at hnd
    obtain ⟨hnotin, hnd'⟩ := hnd
    cases hpk : (p.1 == k) with
    | true =>
      have hk : p.1 = k := by simpa using hpk
      have hv : v = p.2 := by
        unfold dict_get at h
        simp only [List.find?_cons, hpk, Option.map_some'] at h
        exact (Option.some_inj.mp h).symm
      have hbs : dict_get bs k = none := by
        unfold dict_get
        cases hfind : bs.find? (fun q => q.1 == k) with
        | none => rfl
        | some q =>
          have hq1 := List.find?_some hfind
          have hqmem : q ∈ bs := List.mem_of_find?_eq_some hfind
          have hmap : q.1 ∈ bs.map Prod.fst := List.mem_map_of_mem _ hqmem
          rw [show q.1 = k from by simpa using hq1, ← hk] at hmap
          exact absurd hmap hnotin
      show dict_get (dict_merge (dict_set a p.1 p.2) bs) k = some v
      rw [dict_get_merge_of_none bs _ k hbs, hv, ← hk, dict_get_set_self]
    | false =>
      have h' : dict_get bs k = some v := by
        unfold dict_get at h ⊢
        simp only [List.find?_cons, hpk] at h
        exact h
      show dict_get (dict_merge (dict_set a p.1 p.2) bs) k = some v
      exact ih (dict_set a p.1 p.2) hnd' h'

-- ## Claim C9

/-- C9: for every input string, `_zig_target_for_arch` returns a pair whose
two components are either both None or both non-None strings; it never
returns a pair with exactly one None component. -/
theorem C9_zig_target_both_or_neither (arch : String) :
    zig_target_for_arch arch = (none, none) ∨
    ∃ t g, zig_target_for_arch arch = (some t, some g) := by
  unfold zig_target_for_arch
  split_ifs <;> first
    | exact Or.inl rfl
    | exact Or.inr ⟨_, _, rfl⟩

-- ## Claim C2

/-- C2 counterexample: the claim says every normalized architecture string
outside the spec's enumerated set maps to (None, None), but `"armv7l"` is
outside that set and `_zig_target_for_arch` maps it to a non-None pair. -/
theorem C2_counterexample :
    "armv7l" ∉ spec_enumerated_arches ∧
    zig_target_for_arch "armv7l" ≠ ((none, none) : Option String × Option String) := by
  refine ⟨by decide, by decide⟩

/-- C2 amended: the mapped set additionally contains armv7l/armv7; for every
string outside the code's mapped set `_zig_target_for_arch` returns
(None, None), and for every string in it the result is one of the stable,
enumerated (triple, tag) pairs; the resolver never fails. -/
theorem C2_amended_resolution (arch : String) :
    (arch ∉ code_mapped_arches → zig_target_for_arch arch = (none, none)) ∧
    (arch ∈ code_mapped_arches → zig_target_for_arch arch ∈ enumerated_target_pairs) := by
  constructor
  · intro h
    simp only [code_mapped_arches, List.mem_cons, List.not_mem_nil, or_false, not_or] at h
    obtain ⟨h1, h2, h3, h4, h5, h6, h7, h8, h9, h10, h11, h12, h13⟩ := h
    simp [zig_target_for_arch, h1, h2, h3, h4, h5, h6, h7, h8, h9, h10, h11, h12, h13]
  · intro h
    simp only [code_mapped_arches, List.mem_cons, List.not_mem_nil, or_false] at h
    rcases h with h | h | h | h | h | h | h | h | h | h | h | h | h <;> subst h <;> decide

/-- Witness for C2's amended theorem at concrete inputs. -/
theorem C2_amended_witness :
    zig_target_for_arch "riscv64" = (none, none) ∧
    zig_target_for_arch "amd64" ∈ enumerated_target_pairs :=
  ⟨(C2_amended_resolution "riscv64").1 (by decide),
   (C2_amended_resolution "amd64").2 (by decide)⟩

-- ## Claim C6

/-- C6: `_default_linux_plat_name` returns None when the host platform does
not start with "linux" or the architecture tag is unmapped; otherwise it
returns the fixed templates — one set for x86_64/i686, a different set for
all other mapped architectures — formatted with the architecture tag. -/
theorem C6_plat_name_derivation (sysPlatform : String) (pypiArch : Option String) :
    (py_startswith sysPlatform "linux" = false →
       default_linux_plat_name sysPlatform pypiArch = none) ∧
    (pypiArch = none → default_linux_plat_name sysPlatform pypiArch = none) ∧
    (∀ a, py_startswith sysPlatform "linux" = true → pypiArch = some a →
       default_linux_plat_name sysPlatform pypiArch =
         some ((if a ∈ ["x86_64", "i686"] then legacy_x86_templates
                else modern_arch_templates).map (fun t => py_format t a))) ∧
    legacy_x86_templates ≠ modern_arch_templates := by
  refine ⟨?_, ?_, ?_, by decide⟩
  · intro h
    simp [default_linux_plat_name, h]
  · intro h
    subst h
    by_cases hs : py_startswith sysPlatform "linux" <;> simp [default_linux_plat_name, hs]
  · intro a hs ha
    subst ha
    by_cases hx : a ∈ ["x86_64", "i686"] <;>
      simp [default_linux_plat_name, hs, hx]

/-- Witness for C6 at concrete inputs. -/
theorem C6_witness :
    default_linux_plat_name "darwin" (some "x86_64") = none ∧
    default_linux_plat_name "linux" none = none ∧
    default_linux_plat_name "linux" (some "aarch64") =
      some ((if "aarch64" ∈ ["x86_64", "i686"] then legacy_x86_templates
             else modern_arch_templates).map (fun t => py_format t "aarch64")) :=
  ⟨(C6_plat_name_derivation "darwin" (some "x86_64")).1 (by decide),
   (C6_plat_name_derivation "linux" none).2.1 rfl,
   (C6_plat_name_derivation "linux" (some "aarch64")).2.2.1 "aarch64" (by decide) rfl⟩

-- ## Claim C1

/-- C1 counterexample: the claim says extraction of an archive with more
than one top-level entry fails with `MultipleRootsError`, but
`_resolve_source` performs no such check: an archive with two top-level
entries, one being the expected versioned directory, succeeds. -/
theorem C1_counterexample :
    2 ≤ (["flex-2.6.4", "flex-extra"] : List String).length ∧
    resolve_source ["flex-2.6.4", "flex-extra"] "/scratch" =
      Except.ok ("/scratch" ++ "/flex-" ++ FLEX_VERSION) := by
  refine ⟨by decide, by rfl⟩

/-- C1 amended: `_resolve_source` never counts top-level entries; it
succeeds and returns the path of the expected versioned directory
`flex-FLEX_VERSION` whenever that directory exists after extraction
(regardless of how many top-level entries there are), and fails with a
`RuntimeError` (the SourceNotFoundError-equivalent) when it is absent. -/
theorem C1_amended_resolve (entries : List String) (extractDir : String) :
    (("flex-" ++ FLEX_VERSION) ∈ entries →
       resolve_source entries extractDir =
         Except.ok (extractDir ++ "/flex-" ++ FLEX_VERSION)) ∧
    (("flex-" ++ FLEX_VERSION) ∉ entries →
       resolve_source entries extractDir =
         Except.error ("flex sources not found at " ++
           (extractDir ++ "/flex-" ++ FLEX_VERSION))) := by
  constructor
  · intro h
    simp [resolve_source, h]
  · intro h
    simp [resolve_source, h]

/-- Witness for C1's amended theorem at concrete inputs. -/
theorem C1_amended_witness :
    resolve_source ["flex-2.6.4"] "/b" = Except.ok ("/b" ++ "/flex-" ++ FLEX_VERSION) ∧
    resolve_source ["other"] "/b" =
      Except.error ("flex sources not found at " ++ ("/b" ++ "/flex-" ++ FLEX_VERSION)) :=
  ⟨(C1_amended_resolve ["flex-2.6.4"] "/b").1 (by decide),
   (C1_amended_resolve ["other"] "/b").2 (by decide)⟩

-- ## Claim C3

/-- C3 counterexample: the claim says a second pipeline invocation with a
now-cached archive makes no network call, but `pdm_build_init_hook` removes
the build directory — and with it the cached tarball — before calling
`_ensure_tarball`, so with no bundled archive a second run downloads again:
here the cache holds bytes, yet the run's effects contain a network GET. -/
theorem C3_counterexample :
    (TarballFS.mk (some [1]) none).cacheBytes.isSome = true ∧
    ((pdm_build_init_hook "sdist" [] (TarballFS.mk (some [1]) none) [2]
        "linux" "x86_64" (BuildWorld.mk true true true true) ["flex-2.6.4"]
        "/build" "/tmp/flex-build-x").effects.any Effect.isNetGet) = true := by
  exact ⟨rfl, by rfl⟩

/-- C3 amended: `_ensure_tarball` itself is idempotent within a build
invocation — with a cached archive it performs no download and returns the
same path with the filesystem unchanged; without a cache it copies the
bundled archive when one exists and otherwise fetches over the network with
a bounded timeout (600 s), persisting the bytes to the cache; and a repeated
call after any first call downloads nothing.  Across pipeline invocations,
however, `pdm_build_init_hook` deletes the build directory (and the cached
archive inside it) first, so with no bundled archive every run performs a
network fetch. -/
theorem C3_amended_source_resolver (buildDir : String) (fs : TarballFS)
    (net net2 : List Nat) :
    (fs.cacheBytes.isSome = true →
       ensure_tarball buildDir fs net =
         ⟨fs, buildDir ++ "/" ++ FLEX_TARBALL_NAME, [Effect.makeDirs buildDir]⟩) ∧
    (∀ b, fs.cacheBytes = none → fs.bundledBytes = some b →
       (ensure_tarball buildDir fs net).fs.cacheBytes = some b ∧
       (ensure_tarball buildDir fs net).effects.any Effect.isNetGet = false) ∧
    (fs.cacheBytes = none → fs.bundledBytes = none →
       (ensure_tarball buildDir fs net).fs.cacheBytes = some net ∧
       Effect.netGet FLEX_TARBALL_URL 600 ∈ (ensure_tarball buildDir fs net).effects) ∧
    ((ensure_tarball buildDir (ensure_tarball buildDir fs net).fs net2).fs =
        (ensure_tarball buildDir fs net).fs ∧
     (ensure_tarball buildDir (ensure_tarball buildDir fs net).fs net2).resultPath =
        (ensure_tarball buildDir fs net).resultPath ∧
     (ensure_tarball buildDir (ensure_tarball buildDir fs net).fs net2).effects.any
        Effect.isNetGet = false) ∧
    (∀ target caller sysPlatform machine w entries tempDir,
       fs.bundledBytes = none →
       (pdm_build_init_hook target caller fs net sysPlatform machine w entries
          buildDir tempDir).effects.any Effect.isNetGet = true) := by
  refine ⟨?_, ?_, ?_, ?_, ?_⟩
  · intro h
    simp [ensure_tarball, h]
  · intro b h1 h2
    simp [ensure_tarball, h1, h2, Effect.isNetGet]
  · intro h1 h2
    simp [ensure_tarball, h1, h2]
  · rcases hc : fs.cacheBytes with _ | c
    · rcases hb : fs.bundledBytes with _ | b
      · simp [ensure_tarball, hc, hb, Effect.isNetGet]
      · simp [ensure_tarball, hc, hb, Effect.isNetGet]
    · simp [ensure_tarball, hc, Effect.isNetGet]
  · intro target caller sysPlatform machine w entries tempDir hb
    by_cases ht : target = "sdist" <;>
      simp [pdm_build_init_hook, ensure_tarball, ht, hb, Effect.isNetGet]

/-- Witness for C3's amended theorem at concrete inputs. -/
theorem C3_amended_witness :
    (ensure_tarball "/b" ⟨some [1], some [2]⟩ [7] =
       ⟨⟨some [1], some [2]⟩, "/b" ++ "/" ++ FLEX_TARBALL_NAME, [Effect.makeDirs "/b"]⟩) ∧
    ((ensure_tarball "/b" ⟨none, some [2]⟩ [7]).fs.cacheBytes = some [2] ∧
     (ensure_tarball "/b" ⟨none, some [2]⟩ [7]).effects.any Effect.isNetGet = false) ∧
    ((ensure_tarball "/b" ⟨none, none⟩ [7]).fs.cacheBytes = some [7] ∧
     Effect.netGet FLEX_TARBALL_URL 600 ∈ (ensure_tarball "/b" ⟨none, none⟩ [7]).effects) ∧
    ((pdm_build_init_hook "sdist" [] ⟨none, none⟩ [7] "linux" "x86_64"
        ⟨true, true, true, true⟩ ["flex-2.6.4"] "/b" "/t").effects.any
      Effect.isNetGet = true) :=
  ⟨(C3_amended_source_resolver "/b" ⟨some [1], some [2]⟩ [7] [9]).1 rfl,
   (C3_amended_source_resolver "/b" ⟨none, some [2]⟩ [7] [9]).2.1 [2] rfl rfl,
   (C3_amended_source_resolver "/b" ⟨none, none⟩ [7] [9]).2.2.1 rfl rfl,
   (C3_amended_source_resolver "/b" ⟨none, none⟩ [7] [9]).2.2.2.2 "sdist" []
     "linux" "x86_64" ⟨true, true, true, true⟩ ["flex-2.6.4"] "/t" rfl⟩

-- ## Claim C4

/-- C4: in both build runners, when configure, make and install all complete
but the expected binary is absent at `usr/local/bin/flex` under the stage
directory, the runner fails at once with the missing-artifact error, and the
effect trace contains no file copy and no chmod. -/
theorem C4_missing_artifact (w : BuildWorld) (sw : SetupWorld)
    (entries : List String) (tarball tempDir output srcDir stageDir buildLib : String)
    (hw1 : w.configureOk = true) (hw2 : w.makeOk = true) (hw3 : w.installOk = true)
    (hw4 : w.stagedBinaryExists = false)
    (he : ("flex-" ++ FLEX_VERSION) ∈ entries)
    (hs1 : sw.srcDirExists = true) (hs2 : sw.configureExists = true)
    (hs3 : sw.configureOk = true) (hs4 : sw.makeOk = true) (hs5 : sw.installOk = true)
    (hs6 : sw.stagedBinaryExists = false) :
    ((build_flex w entries tarball tempDir output).failure =
       some ("Expected flex binary missing at " ++
         (tempDir ++ "/flex-stage" ++ "/usr/local/bin/flex")) ∧
     (build_flex w entries tarball tempDir output).effects.all
       (fun e => !e.isCopy && !e.isChmod) = true) ∧
    ((setup_build_flex_run sw srcDir stageDir buildLib).failure =
       some ("flex binary not found at " ++ (stageDir ++ "/usr/local/bin/flex")) ∧
     (setup_build_flex_run sw srcDir stageDir buildLib).effects.all
       (fun e => !e.isCopy && !e.isChmod) = true) := by
  constructor
  · constructor <;>
      simp [build_flex, resolve_source, he, hw1, hw2, hw3, hw4,
        Effect.isCopy, Effect.isChmod]
  · constructor <;>
      · by_cases hman : sw.manPageExists <;>
          simp [setup_build_flex_run, setup_after_configure, hs1, hs2, hs3,
            hs4, hs5, hs6, hman, Effect.isCopy, Effect.isChmod]

/-- Witness for C4 at a concrete world where install completes but the
staged binary is absent. -/
theorem C4_witness :
    ((build_flex ⟨true, true, true, false⟩ ["flex-2.6.4"] "/b/flex-2.6.4.tar.gz"
        "/t" "/b/gnu_flex/bin/flex").failure =
       some ("Expected flex binary missing at " ++
         ("/t" ++ "/flex-stage" ++ "/usr/local/bin/flex")) ∧
     (build_flex ⟨true, true, true, false⟩ ["flex-2.6.4"] "/b/flex-2.6.4.tar.gz"
        "/t" "/b/gnu_flex/bin/flex").effects.all
       (fun e => !e.isCopy && !e.isChmod) = true) ∧
    ((setup_build_flex_run
        ⟨true, true, false, false, false, false, true, true, true, true, true,
         true, false, 4⟩ "/s" "/st" "/L").failure =
       some ("flex binary not found at " ++ ("/st" ++ "/usr/local/bin/flex")) ∧
     (setup_build_flex_run
        ⟨true, true, false, false, false, false, true, true, true, true, true,
         true, false, 4⟩ "/s" "/st" "/L").effects.all
       (fun e => !e.isCopy && !e.isChmod) = true) :=
  C4_missing_artifact ⟨true, true, true, false⟩
    ⟨true, true, false, false, false, false, true, true, true, true, true,
     true, false, 4⟩
    ["flex-2.6.4"] "/b/flex-2.6.4.tar.gz" "/t" "/b/gnu_flex/bin/flex" "/s" "/st" "/L"
    rfl rfl rfl rfl (by decide) rfl rfl rfl rfl rfl rfl

-- ## Claim C5

/-- C5: `BuildFlex.run` of setup.py, on a source tree that exists but has
neither a `configure` script nor an `autogen.sh`, fails with the
configure-missing `DistutilsExecError` (the SourceNotFoundError-equivalent)
with an empty effect trace — in particular before creating any subprocess. -/
theorem C5_no_configure_no_subprocess (sw : SetupWorld)
    (srcDir stageDir buildLib : String)
    (h1 : sw.srcDirExists = true) (h2 : sw.configureExists = false)
    (h3 : sw.autogenExists = false) :
    setup_build_flex_run sw srcDir stageDir buildLib =
      ⟨[], some "configure script missing and autogen.sh not found; use a release tarball or provide FLEX_SOURCE with generated build files."⟩ := by
  simp [setup_build_flex_run, h1, h2, h3]

/-- Witness for C5 at a concrete world. -/
theorem C5_witness :
    setup_build_flex_run
        ⟨true, false, false, false, false, false, true, true, true, true, true,
         true, true, 1⟩ "/s" "/st" "/L" =
      ⟨[], some "configure script missing and autogen.sh not found; use a release tarball or provide FLEX_SOURCE with generated build files."⟩ :=
  C5_no_configure_no_subprocess
    ⟨true, false, false, false, false, false, true, true, true, true, true,
     true, true, 1⟩ "/s" "/st" "/L" rfl rfl rfl

-- ## Claim C7

/-- C7: after a successful build, both runners chmod the staged final
executable to `0o755`; that mode allows read (0o444) and execute (0o111)
for owner, group and other, and of the write bits (0o222) only the owner
bit (0o200) is set. -/
theorem C7_staged_mode (w : BuildWorld) (sw : SetupWorld)
    (entries : List String) (tarball tempDir output srcDir stageDir buildLib : String)
    (hw1 : w.configureOk = true) (hw2 : w.makeOk = true) (hw3 : w.installOk = true)
    (hw4 : w.stagedBinaryExists = true)
    (he : ("flex-" ++ FLEX_VERSION) ∈ entries)
    (hs1 : sw.srcDirExists = true) (hs2 : sw.configureExists = true)
    (hs3 : sw.configureOk = true) (hs4 : sw.makeOk = true) (hs5 : sw.installOk = true)
    (hs6 : sw.stagedBinaryExists = true) :
    ((build_flex w entries tarball tempDir output).failure = none ∧
     Effect.chmodFile output staged_mode ∈
       (build_flex w entries tarball tempDir output).effects) ∧
    ((setup_build_flex_run sw srcDir stageDir buildLib).failure = none ∧
     Effect.chmodFile (buildLib ++ "/gnu_flex/bin/flex") staged_mode ∈
       (setup_build_flex_run sw srcDir stageDir buildLib).effects) ∧
    (staged_mode = 0o755 ∧
     Nat.land staged_mode 0o444 = 0o444 ∧
     Nat.land staged_mode 0o111 = 0o111 ∧
     Nat.land staged_mode 0o222 = 0o200) := by
  refine ⟨⟨?_, ?_⟩, ⟨?_, ?_⟩, by decide, by decide, by decide, by decide⟩
  · simp [build_flex, resolve_source, he, hw1, hw2, hw3, hw4]
  · simp [build_flex, resolve_source, he, hw1, hw2, hw3, hw4]
  · by_cases hman : sw.manPageExists <;>
      simp [setup_build_flex_run, setup_after_configure, hs1, hs2, hs3, hs4,
        hs5, hs6, hman]
  · by_cases hman : sw.manPageExists <;>
      simp [setup_build_flex_run, setup_after_configure, hs1, hs2, hs3, hs4,
        hs5, hs6, hman]

/-- Witness for C7 at a concrete successful world. -/
theorem C7_witness :
    ((build_flex ⟨true, true, true, true⟩ ["flex-2.6.4"] "/b/flex-2.6.4.tar.gz"
        "/t" "/out/flex").failure = none ∧
     Effect.chmodFile "/out/flex" staged_mode ∈
       (build_flex ⟨true, true, true, true⟩ ["flex-2.6.4"] "/b/flex-2.6.4.tar.gz"
         "/t" "/out/flex").effects) ∧
    ((setup_build_flex_run
        ⟨true, true, false, false, false, false, true, true, true, true, true,
         true, true, 2⟩ "/s" "/st" "/L").failure = none ∧
     Effect.chmodFile ("/L" ++ "/gnu_flex/bin/flex") staged_mode ∈
       (setup_build_flex_run
         ⟨true, true, false, false, false, false, true, true, true, true, true,
          true, true, 2⟩ "/s" "/st" "/L").effects) ∧
    (staged_mode = 0o755 ∧
     Nat.land staged_mode 0o444 = 0o444 ∧
     Nat.land staged_mode 0o111 = 0o111 ∧
     Nat.land staged_mode 0o222 = 0o200) :=
  C7_staged_mode ⟨true, true, true, true⟩
    ⟨true, true, false, false, false, false, true, true, true, true, true,
     true, true, 2⟩
    ["flex-2.6.4"] "/b/flex-2.6.4.tar.gz" "/t" "/out/flex" "/s" "/st" "/L"
    rfl rfl rfl rfl (by decide) rfl rfl rfl rfl rfl rfl

-- ## Claim C8

/-- C8: for the "sdist" target, `pdm_build_init_hook` ensures the tarball is
present in the build directory and returns: the hook does not change the
caller's config settings, raises no error, and its effect trace contains no
subprocess invocation (no configure/make/install). -/
theorem C8_sdist_frame (caller : List (String × CfgVal)) (fs : TarballFS)
    (net : List Nat) (sysPlatform machine : String) (w : BuildWorld)
    (entries : List String) (buildDir tempDir : String) :
    (pdm_build_init_hook "sdist" caller fs net sysPlatform machine w entries
        buildDir tempDir).configSettings = caller ∧
    (pdm_build_init_hook "sdist" caller fs net sysPlatform machine w entries
        buildDir tempDir).failure = none ∧
    (pdm_build_init_hook "sdist" caller fs net sysPlatform machine w entries
        buildDir tempDir).fs.cacheBytes.isSome = true ∧
    (pdm_build_init_hook "sdist" caller fs net sysPlatform machine w entries
        buildDir tempDir).effects.all (fun e => !e.isRunProc) = true := by
  rcases hb : fs.bundledBytes with _ | b <;>
    simp [pdm_build_init_hook, ensure_tarball, hb, Effect.isRunProc]

-- ## Claim C10

/-- C10: for a non-sdist target, caller-supplied config settings override
the hook's default `--python-tag` and `--py-limited-api` values (the
caller's dict is spread after the defaults), while the derived `--plat-name`
list is assigned after the merge and therefore wins over any caller value
whenever a platform-name list is derived (host is Linux and the architecture
is mapped). -/
theorem C10_settings_precedence (target : String)
    (caller : List (String × CfgVal)) (fs : TarballFS) (net : List Nat)
    (sysPlatform machine : String) (w : BuildWorld) (entries : List String)
    (buildDir tempDir : String)
    (hnd : (caller.map Prod.fst).Nodup) (ht : target ≠ "sdist") :
    (∀ v, dict_get caller "--python-tag" = some v →
       dict_get (pdm_build_init_hook target caller fs net sysPlatform machine w
          entries buildDir tempDir).configSettings "--python-tag" = some v) ∧
    (∀ v, dict_get caller "--py-limited-api" = some v →
       dict_get (pdm_build_init_hook target caller fs net sysPlatform machine w
          entries buildDir tempDir).configSettings "--py-limited-api" = some v) ∧
    (∀ lst, default_linux_plat_name sysPlatform
          (zig_target_for_arch (normalize_machine machine)).2 = some lst →
       dict_get (pdm_build_init_hook target caller fs net sysPlatform machine w
          entries buildDir tempDir).configSettings "--plat-name" =
         some (CfgVal.l lst)) := by
  have key : (pdm_build_init_hook target caller fs net sysPlatform machine w
        entries buildDir tempDir).configSettings =
      (match default_linux_plat_name sysPlatform
          (zig_target_for_arch (normalize_machine machine)).2 with
       | some lst =>
         dict_set (dict_merge [("--python-tag", CfgVal.s "py3"),
           ("--py-limited-api", CfgVal.s "none")] caller) "--plat-name" (CfgVal.l lst)
       | none =>
         dict_merge [("--python-tag", CfgVal.s "py3"),
           ("--py-limited-api", CfgVal.s "none")] caller) := by
    simp only [pdm_build_init_hook, if_neg ht]
  refine ⟨?_, ?_, ?_⟩
  · intro v hv
    have hm := dict_get_merge_of_some caller
      [("--python-tag", CfgVal.s "py3"), ("--py-limited-api", CfgVal.s "none")]
      "--python-tag" v hnd hv
    rw [key]
    cases hplat : default_linux_plat_name sysPlatform
        (zig_target_for_arch (normalize_machine machine)).2 with
    | none => exact hm
    | some lst =>
      rw [show (match (some lst : Option (List String)) with
          | some lst =>
            dict_set (dict_merge [("--python-tag", CfgVal.s "py3"),
              ("--py-limited-api", CfgVal.s "none")] caller) "--plat-name"
              (CfgVal.l lst)
          | none =>
            dict_merge [("--python-tag", CfgVal.s "py3"),
              ("--py-limited-api", CfgVal.s "none")] caller) =
          dict_set (dict_merge [("--python-tag", CfgVal.s "py3"),
            ("--py-limited-api", CfgVal.s "none")] caller) "--plat-name"
            (CfgVal.l lst) from rfl,
        dict_get_set_ne _ _ _ _ (by decide)]
      exact hm
  · intro v hv
    have hm := dict_get_merge_of_some caller
      [("--python-tag", CfgVal.s "py3"), ("--py-limited-api", CfgVal.s "none")]
      "--py-limited-api" v hnd hv
    rw [key]
    cases hplat : default_linux_plat_name sysPlatform
        (zig_target_for_arch (normalize_machine machine)).2 with
    | none => exact hm
    | some lst =>
      rw [show (match (some lst : Option (List String)) with
          | some lst =>
            dict_set (dict_merge [("--python-tag", CfgVal.s "py3"),
              ("--py-limited-api", CfgVal.s "none")] caller) "--plat-name"
              (CfgVal.l lst)
          | none =>
            dict_merge [("--python-tag", CfgVal.s "py3"),
              ("--py-limited-api", CfgVal.s "none")] caller) =
          dict_set (dict_merge [("--python-tag", CfgVal.s "py3"),
            ("--py-limited-api", CfgVal.s "none")] caller) "--plat-name"
            (CfgVal.l lst) from rfl,
        dict_get_set_ne _ _ _ _ (by decide)]
      exact hm
  · intro lst hplat
    rw [key, hplat]
    exact dict_get_set_self _ _ _

/-- Witness for C10 at concrete inputs: the caller overrides the default
python tag, and the derived Linux x86_64 platform list overrides the
caller's `--plat-name`. -/
theorem C10_witness :
    dict_get (pdm_build_init_hook "wheel"
        [("--python-tag", CfgVal.s "cp39"), ("--plat-name", CfgVal.l ["win32"])]
        ⟨none, none⟩ [7] "linux" "x86_64" ⟨true, true, true, true⟩
        ["flex-2.6.4"] "/b" "/t").configSettings "--python-tag" =
      some (CfgVal.s "cp39") ∧
    dict_get (pdm_build_init_hook "wheel"
        [("--python-tag", CfgVal.s "cp39"), ("--plat-name", CfgVal.l ["win32"])]
        ⟨none, none⟩ [7] "linux" "x86_64" ⟨true, true, true, true⟩
        ["flex-2.6.4"] "/b" "/t").configSettings "--plat-name" =
      some (CfgVal.l (legacy_x86_templates.map (fun t => py_format t "x86_64"))) :=
  ⟨(C10_settings_precedence "wheel"
      [("--python-tag", CfgVal.s "cp39"), ("--plat-name", CfgVal.l ["win32"])]
      ⟨none, none⟩ [7] "linux" "x86_64" ⟨true, true, true, true⟩
      ["flex-2.6.4"] "/b" "/t" (by decide) (by decide)).1
      (CfgVal.s "cp39") rfl,
   (C10_settings_precedence "wheel"
      [("--python-tag", CfgVal.s "cp39"), ("--plat-name", CfgVal.l ["win32"])]
      ⟨none, none⟩ [7] "linux" "x86_64" ⟨true, true, true, true⟩
      ["flex-2.6.4"] "/b" "/t" (by decide) (by decide)).2.2
      (legacy_x86_templates.map (fun t => py_format t "x86_64")) rfl⟩

end FlexPy
